import Mathlib

/-!
Verification of the credential-pool / generation-gateway repository
(`src/api/routes.py`, `src/core/database.py`, `src/core/models.py`).

The Python source is shallowly embedded:
* SQL tables become Lean lists of structures mirroring the pydantic models
  of `src/core/models.py`; `UPDATE ... WHERE` becomes a `List.map` that
  rewrites exactly the matching rows.
* timestamps (`CURRENT_TIMESTAMP`, `datetime.now()`) and dates
  (`date.today()`) are passed explicitly as integer parameters.
* Python `float` progress values are modelled as `Rat` (the values the
  program uses, 0–100 with short decimal parts, are represented exactly).
* `json.loads` / `json.dumps` are modelled by the executable
  `Json.parse` / `Json.dumps` below, reproducing Python's `json` module
  defaults (`ensure_ascii=True`, separators `", "` and `": "`, objects
  keeping insertion order with duplicate keys overwritten in place,
  acceptance of `NaN` / `Infinity` / `-Infinity`).  One deviation: Python
  keeps lone UTF-16 surrogates produced by `\uXXXX` escapes, which are not
  representable as Lean `Char`; `Json.parse` rejects those strings.  No
  claim in this development exercises that corner.
-/

/-! ### JSON values, printing (`json.dumps`) and parsing (`json.loads`) -/

/-- JSON value.  Numbers keep their raw source text: no claim in this
development computes with JSON numbers, and keeping the literal avoids
modelling Python float semantics. -/
inductive Json where
  | null
  | bool (b : Bool)
  | num (raw : String)
  | str (s : String)
  | arr (elems : List Json)
  | obj (fields : List (String × Json))

/-- Opening brace character (written via its code point, U+007B). -/
def lbraceChar : Char := Char.ofNat 123

/-- Closing brace character (U+007D). -/
def rbraceChar : Char := Char.ofNat 125

/-- Lowercase hexadecimal digit for a value below 16. -/
def hexDigitChar (n : Nat) : Char :=
  if n < 10 then Char.ofNat (48 + n) else Char.ofNat (87 + n % 16)

/-- Four-digit lowercase hexadecimal rendering, as in Python `\uXXXX` escapes. -/
def hex4 (n : Nat) : String :=
  String.mk [hexDigitChar (n / 4096 % 16), hexDigitChar (n / 256 % 16),
             hexDigitChar (n / 16 % 16), hexDigitChar (n % 16)]

/-- Escape of one character inside a JSON string, following
`json.dumps` with `ensure_ascii=True`: `"` and `\` and the short control
escapes, `\uXXXX` for every other character outside printable ASCII
(0x20–0x7e), surrogate pairs above U+FFFF. -/
def jsonEscapeChar (c : Char) : String :=
  if c = '"' then "\\\""
  else if c = '\\' then "\\\\"
  else if c = '\n' then "\\n"
  else if c = '\r' then "\\r"
  else if c = '\t' then "\\t"
  else if c = Char.ofNat 8 then "\\b"
  else if c = Char.ofNat 12 then "\\f"
  else if c.toNat < 32 || c.toNat > 126 then
    if c.toNat ≥ 65536 then
      let v := c.toNat - 65536
      "\\u" ++ hex4 (55296 + v / 1024) ++ "\\u" ++ hex4 (56320 + v % 1024)
    else
      "\\u" ++ hex4 c.toNat
  else String.singleton c

/-- JSON string literal rendering (quotes plus escaped content). -/
def jsonQuote (s : String) : String :=
  "\"" ++ String.join (s.toList.map jsonEscapeChar) ++ "\""

mutual

/-- Model of Python `json.dumps` with default arguments: item separator
`", "`, key separator `": "`, `ensure_ascii=True`. -/
def Json.dumps : Json → String
  | Json.null => "null"
  | Json.bool b => if b then "true" else "false"
  | Json.num raw => raw
  | Json.str s => jsonQuote s
  | Json.arr xs => "[" ++ Json.dumpsArr xs ++ "]"
  | Json.obj fs => String.singleton lbraceChar ++ Json.dumpsObj fs ++ String.singleton rbraceChar

/-- Comma-joined rendering of array elements. -/
def Json.dumpsArr : List Json → String
  | [] => ""
  | [x] => Json.dumps x
  | x :: y :: xs => Json.dumps x ++ ", " ++ Json.dumpsArr (y :: xs)

/-- Comma-joined rendering of object members. -/
def Json.dumpsObj : List (String × Json) → String
  | [] => ""
  | [(k, v)] => jsonQuote k ++ ": " ++ Json.dumps v
  | (k, v) :: f :: fs => jsonQuote k ++ ": " ++ Json.dumps v ++ ", " ++ Json.dumpsObj (f :: fs)

end

/-- JSON whitespace accepted by Python's decoder. -/
def isJsonWs (c : Char) : Bool :=
  c = ' ' || c = '\t' || c = '\n' || c = '\r'

/-- Skip leading JSON whitespace. -/
def skipWs : List Char → List Char
  | [] => []
  | c :: rest => if isJsonWs c then skipWs rest else c :: rest

/-- Numeric value of one hexadecimal digit (either case), if any. -/
def hexVal (c : Char) : Option Nat :=
  if '0' ≤ c ∧ c ≤ '9' then some (c.toNat - 48)
  else if 'a' ≤ c ∧ c ≤ 'f' then some (c.toNat - 87)
  else if 'A' ≤ c ∧ c ≤ 'F' then some (c.toNat - 55)
  else none

/-- Prepend a character to the string being accumulated by
`parseStringBody`. -/
def pushChar (c : Char) : Option (List Char × List Char) → Option (List Char × List Char)
  | none => none
  | some (s, r) => some (c :: s, r)

/-- Parse the body of a JSON string (the opening quote already consumed),
returning the decoded characters and the remaining input.  Follows
Python's strict decoder: raw control characters are rejected, the eight
short escapes and `\uXXXX` (with surrogate pairs) are decoded.  Lone
surrogates are rejected (see the module comment). -/
def parseStringBody : List Char → Option (List Char × List Char)
  | [] => none
  | '"' :: rest => some ([], rest)
  | '\\' :: '"' :: rest => pushChar '"' (parseStringBody rest)
  | '\\' :: '\\' :: rest => pushChar '\\' (parseStringBody rest)
  | '\\' :: '/' :: rest => pushChar '/' (parseStringBody rest)
  | '\\' :: 'b' :: rest => pushChar (Char.ofNat 8) (parseStringBody rest)
  | '\\' :: 'f' :: rest => pushChar (Char.ofNat 12) (parseStringBody rest)
  | '\\' :: 'n' :: rest => pushChar '\n' (parseStringBody rest)
  | '\\' :: 'r' :: rest => pushChar '\r' (parseStringBody rest)
  | '\\' :: 't' :: rest => pushChar '\t' (parseStringBody rest)
  | '\\' :: 'u' :: a :: b :: c :: d :: rest =>
    match hexVal a, hexVal b, hexVal c, hexVal d with
    | some ha, some hb, some hc, some hd =>
      let n := ha * 4096 + hb * 256 + hc * 16 + hd
      if 55296 ≤ n ∧ n ≤ 56319 then
        match rest with
        | '\\' :: 'u' :: a2 :: b2 :: c2 :: d2 :: rest2 =>
          match hexVal a2, hexVal b2, hexVal c2, hexVal d2 with
          | some ha2, some hb2, some hc2, some hd2 =>
            let n2 := ha2 * 4096 + hb2 * 256 + hc2 * 16 + hd2
            if 56320 ≤ n2 ∧ n2 ≤ 57343 then
              pushChar (Char.ofNat (65536 + (n - 55296) * 1024 + (n2 - 56320)))
                (parseStringBody rest2)
            else none
          | _, _, _, _ => none
        | _ => none
      else if 56320 ≤ n ∧ n ≤ 57343 then none
      else pushChar (Char.ofNat n) (parseStringBody rest)
    | _, _, _, _ => none
  | '\\' :: _ => none
  | c :: rest => if c.toNat < 32 then none else pushChar c (parseStringBody rest)

/-- Longest prefix of decimal digits. -/
def takeDigits : List Char → List Char × List Char
  | [] => ([], [])
  | c :: rest =>
    if c.isDigit then
      let (ds, r) := takeDigits rest
      (c :: ds, r)
    else ([], c :: rest)

/-- Integer part of the JSON number grammar: `0` or a nonzero digit
followed by digits (no leading zeros). -/
def parseIntPart : List Char → Option (List Char × List Char)
  | [] => none
  | '0' :: rest => some (['0'], rest)
  | c :: rest =>
    if '1' ≤ c ∧ c ≤ '9' then
      let (ds, r) := takeDigits rest
      some (c :: ds, r)
    else none

/-- Optional fraction part `.digits` of the JSON number grammar; when the
dot is not followed by a digit the group does not match and the input is
left untouched, as with Python's number regex. -/
def parseFracPart : List Char → List Char × List Char
  | '.' :: rest =>
    match takeDigits rest with
    | ([], _) => ([], '.' :: rest)
    | (ds, r) => ('.' :: ds, r)
  | cs => ([], cs)

/-- Optional exponent part `[eE][+-]?digits` of the JSON number grammar. -/
def parseExpPart : List Char → List Char × List Char
  | e :: '+' :: rest =>
    if e = 'e' ∨ e = 'E' then
      match takeDigits rest with
      | ([], _) => ([], e :: '+' :: rest)
      | (ds, r) => (e :: '+' :: ds, r)
    else ([], e :: '+' :: rest)
  | e :: '-' :: rest =>
    if e = 'e' ∨ e = 'E' then
      match takeDigits rest with
      | ([], _) => ([], e :: '-' :: rest)
      | (ds, r) => (e :: '-' :: ds, r)
    else ([], e :: '-' :: rest)
  | e :: rest =>
    if e = 'e' ∨ e = 'E' then
      match takeDigits rest with
      | ([], _) => ([], e :: rest)
      | (ds, r) => (e :: ds, r)
    else ([], e :: rest)
  | [] => ([], [])

/-- Parse a JSON number (including optional leading minus), returning its
raw text and the remaining input. -/
def parseNumberBody : List Char → Option (List Char × List Char)
  | '-' :: rest =>
    match parseIntPart rest with
    | none => none
    | some (ip, r1) =>
      let (fp, r2) := parseFracPart r1
      let (ep, r3) := parseExpPart r2
      some ('-' :: (ip ++ fp ++ ep), r3)
  | cs =>
    match parseIntPart cs with
    | none => none
    | some (ip, r1) =>
      let (fp, r2) := parseFracPart r1
      let (ep, r3) := parseExpPart r2
      some (ip ++ fp ++ ep, r3)

/-- Insert a key/value pair into an object under Python `dict` semantics:
an existing key keeps its position and its value is overwritten. -/
def insertField (fields : List (String × Json)) (k : String) (v : Json) : List (String × Json) :=
  match fields with
  | [] => [(k, v)]
  | (k0, v0) :: rest =>
    if k0 = k then (k0, v) :: rest else (k0, v0) :: insertField rest k v

mutual

/-- Parse one JSON value.  The `Nat` fuel bounds nesting and list length;
`Json.parse` supplies enough for any input. -/
def parseValue : Nat → List Char → Option (Json × List Char)
  | 0, _ => none
  | _ + 1, 'n' :: 'u' :: 'l' :: 'l' :: rest => some (Json.null, rest)
  | _ + 1, 't' :: 'r' :: 'u' :: 'e' :: rest => some (Json.bool true, rest)
  | _ + 1, 'f' :: 'a' :: 'l' :: 's' :: 'e' :: rest => some (Json.bool false, rest)
  | _ + 1, 'N' :: 'a' :: 'N' :: rest => some (Json.num "NaN", rest)
  | _ + 1, 'I' :: 'n' :: 'f' :: 'i' :: 'n' :: 'i' :: 't' :: 'y' :: rest =>
    some (Json.num "Infinity", rest)
  | _ + 1, '-' :: 'I' :: 'n' :: 'f' :: 'i' :: 'n' :: 'i' :: 't' :: 'y' :: rest =>
    some (Json.num "-Infinity", rest)
  | _ + 1, '"' :: rest =>
    match parseStringBody rest with
    | some (s, r) => some (Json.str (String.mk s), r)
    | none => none
  | fuel + 1, '[' :: rest =>
    match skipWs rest with
    | ']' :: r => some (Json.arr [], r)
    | cs => parseArrayRest fuel cs []
  | fuel + 1, c :: rest =>
    if c = lbraceChar then
      match skipWs rest with
      | c2 :: r =>
        if c2 = rbraceChar then some (Json.obj [], r)
        else parseObjectRest fuel (c2 :: r) []
      | [] => none
    else
      match parseNumberBody (c :: rest) with
      | some (raw, r) => some (Json.num (String.mk raw), r)
      | none => none
  | _ + 1, [] => none

/-- Parse the remaining comma-separated elements of a non-empty array. -/
def parseArrayRest : Nat → List Char → List Json → Option (Json × List Char)
  | 0, _, _ => none
  | fuel + 1, cs, acc =>
    match parseValue fuel cs with
    | none => none
    | some (v, rest) =>
      match skipWs rest with
      | ']' :: r => some (Json.arr (acc ++ [v]), r)
      | ',' :: r => parseArrayRest fuel (skipWs r) (acc ++ [v])
      | _ => none

/-- Parse the remaining members of a non-empty object. -/
def parseObjectRest : Nat → List Char → List (String × Json) → Option (Json × List Char)
  | 0, _, _ => none
  | fuel + 1, cs, acc =>
    match cs with
    | '"' :: rest =>
      match parseStringBody rest with
      | none => none
      | some (key, r1) =>
        match skipWs r1 with
        | ':' :: r2 =>
          match parseValue fuel (skipWs r2) with
          | none => none
          | some (v, r3) =>
            let acc2 := insertField acc (String.mk key) v
            match skipWs r3 with
            | c :: r4 =>
              if c = rbraceChar then some (Json.obj acc2, r4)
              else if c = ',' then parseObjectRest fuel (skipWs r4) acc2
              else none
            | [] => none
        | _ => none
    | _ => none

end

/-- Model of Python `json.loads`: parse a complete document, rejecting
trailing non-whitespace, `none` on any decode error. -/
def Json.parse (s : String) : Option Json :=
  match parseValue (2 * s.toList.length + 4) (skipWs s.toList) with
  | some (v, rest) => if skipWs rest = [] then some v else none
  | none => none

/-- Look up a key in a JSON object's field list (first occurrence). -/
def jsonLookup (fields : List (String × Json)) (k : String) : Option Json :=
  match fields with
  | [] => none
  | (k0, v) :: rest => if k0 = k then some v else jsonLookup rest k

/-! ### Remix-identifier extraction (`routes.py` `_extract_remix_id`) -/

/-- Character class `[a-f0-9]` of the remix-identifier pattern. -/
def isLowerHex (c : Char) : Bool :=
  ('a' ≤ c && c ≤ 'f') || ('0' ≤ c && c ≤ '9')

/-- Attempt to match the regex `s_[a-f0-9]{32}` at the start of the
input, returning the matched characters. -/
def remixMatchAt : List Char → Option (List Char)
  | c1 :: c2 :: rest =>
    if c1 = 's' ∧ c2 = '_' then
      if (rest.take 32).length = 32 ∧ (rest.take 32).all isLowerHex = true then
        some (c1 :: c2 :: rest.take 32)
      else none
    else none
  | _ => none

/-- Leftmost match of `s_[a-f0-9]{32}`, as `re.search` finds it: try each
start position from the left. -/
def remixSearch : List Char → Option (List Char)
  | [] => none
  | c :: rest =>
    match remixMatchAt (c :: rest) with
    | some m => some m
    | none => remixSearch rest

/-- Model of `_extract_remix_id` (`routes.py` lines 45–66): empty text
gives `""`, otherwise the first `re.search(r's_[a-f0-9]{32}', text)`
match, or `""` when there is none. -/
def extractRemixId (text : String) : String :=
  if text = "" then ""
  else
    match remixSearch text.toList with
    | some m => String.mk m
    | none => ""

/-- Model of the remix-identifier selection in `create_chat_completion`
(`routes.py` lines 163–170): the prompt is scanned with
`_extract_remix_id` only when `request.remix_target_id` is falsy
(absent or the empty string). -/
def effectiveRemixId (prompt : String) (remix_target_id : Option String) : String :=
  match remix_target_id with
  | none => extractRemixId prompt
  | some t => if t = "" then extractRemixId prompt else t

/-- Specification-side shape of a remix identifier: the literal `s_`
followed by exactly 32 lowercase hexadecimal characters. -/
def IsRemixIdShape (m : List Char) : Prop :=
  ∃ hex, m = 's' :: '_' :: hex ∧ hex.length = 32 ∧ ∀ c ∈ hex, isLowerHex c = true

/-- Specification-side statement that `m` is the first (leftmost)
occurrence of the remix-identifier shape in `text`. -/
def FirstRemixOccurrence (text m : List Char) : Prop :=
  ∃ pre post, text = pre ++ m ++ post ∧ IsRemixIdShape m ∧
    ∀ pre2 m2 post2, text = pre2 ++ m2 ++ post2 → IsRemixIdShape m2 →
      pre.length ≤ pre2.length

/-! ### Data model (`src/core/models.py`) and store (`src/core/database.py`)

Tables are lists of rows; `UPDATE ... WHERE` rewrites matching rows in
place via `List.map`.  Timestamps and dates are integers supplied by the
caller (`now`, `today`). -/

/-- Row of the `tokens` table, mirroring `models.Token`. -/
structure Token where
  id : Option Int := none
  token : String
  email : String
  name : Option String := some ""
  st : Option String := none
  rt : Option String := none
  client_id : Option String := none
  proxy_url : Option String := none
  remark : Option String := none
  expiry_time : Option Int := none
  is_active : Bool := true
  cooled_until : Option Int := none
  created_at : Option Int := none
  last_used_at : Option Int := none
  use_count : Int := 0
  plan_type : Option String := none
  plan_title : Option String := none
  subscription_end : Option Int := none
  sora2_supported : Option Bool := none
  sora2_invite_code : Option String := none
  sora2_redeemed_count : Int := 0
  sora2_total_count : Int := 0
  sora2_remaining_count : Int := 0
  sora2_cooldown_until : Option Int := none
  image_enabled : Bool := true
  video_enabled : Bool := true
  image_concurrency : Int := -1
  video_concurrency : Int := -1
  is_expired : Bool := false
deriving DecidableEq, Repr

/-- Row of the `token_stats` table, mirroring `models.TokenStats`. -/
structure TokenStats where
  id : Option Int := none
  token_id : Int
  image_count : Int := 0
  video_count : Int := 0
  error_count : Int := 0
  last_error_at : Option Int := none
  today_image_count : Int := 0
  today_video_count : Int := 0
  today_error_count : Int := 0
  today_date : Option Int := none
  consecutive_error_count : Int := 0
deriving DecidableEq, Repr

/-- Row of the `tasks` table, mirroring `models.Task` (named `TaskRow`
here because Lean's core library already declares `Task`).  `progress` is
the Python `float`, modelled as `Rat`. -/
structure TaskRow where
  id : Option Int := none
  task_id : String
  token_id : Int
  model : String
  prompt : String
  status : String := "processing"
  progress : Rat := 0
  result_urls : Option String := none
  error_message : Option String := none
  created_at : Option Int := none
  completed_at : Option Int := none
deriving DecidableEq, Repr

/-- Model of `Database.update_task` (`database.py` lines 657–667): one
unconditional `UPDATE` of every row whose `task_id` matches, setting
status, progress, result_urls and error_message to the given arguments
and `completed_at` to `datetime.now()` when the new status is
`completed` or `failed`, `NULL` otherwise. -/
def updateTask (tasks : List TaskRow) (task_id status : String) (progress : Rat)
    (result_urls error_message : Option String) (now : Int) : List TaskRow :=
  tasks.map fun t =>
    if t.task_id = task_id then
      { t with
        status := status
        progress := progress
        result_urls := result_urls
        error_message := error_message
        completed_at := if status = "completed" ∨ status = "failed" then some now else none }
    else t

/-- Eligibility filter of `Database.get_active_tokens` (`database.py`
lines 319–325): `is_active`, cooldown absent or strictly past, expiry
absent or strictly in the future. -/
def activeTokenCond (now : Int) (t : Token) : Bool :=
  t.is_active &&
    (match t.cooled_until with
     | none => true
     | some c => c < now) &&
    (match t.expiry_time with
     | none => true
     | some e => now < e)

/-- Comparison implementing `ORDER BY last_used_at ASC NULLS FIRST`. -/
def lastUsedLE (a b : Token) : Bool :=
  match a.last_used_at, b.last_used_at with
  | none, _ => true
  | some _, none => false
  | some x, some y => x ≤ y

/-- Model of `Database.get_active_tokens` (`database.py` lines 315–326):
filter the eligible rows, order by last-used time ascending with `NULL`
first.  The SQL leaves tie order unspecified; the embedding uses a
stable sort over table order. -/
def getActiveTokens (tokens : List Token) (now : Int) : List Token :=
  List.mergeSort (tokens.filter (activeTokenCond now)) lastUsedLE

/-- Model of `Database.mark_token_expired` (`database.py` lines 353–359):
`UPDATE tokens SET is_expired = TRUE, is_active = FALSE WHERE id = $1`. -/
def markTokenExpired (tokens : List Token) (token_id : Int) : List Token :=
  tokens.map fun t =>
    if t.id = some token_id then { t with is_expired := true, is_active := false } else t

/-- Day-rollover test shared by the stats updates (`database.py` lines
531–534 etc.): the stats row for the token is fetched and its
`today_date` compared with `date.today()`; a missing row or a differing
(possibly `NULL`) date selects the reset branch.  When no row exists the
subsequent `UPDATE` matches nothing, which the `false` default
reproduces (`List.map` then changes nothing). -/
def statsRollover (stats : List TokenStats) (token_id : Int) (today : Int) : Bool :=
  match stats.find? (fun s => s.token_id = token_id) with
  | some r => r.today_date ≠ some today
  | none => false

/-- Model of `Database.increment_image_count` (`database.py` lines
524–550): `image_count` always grows by one; on a day rollover
`today_image_count` restarts at 1, otherwise it grows by one;
`today_date` is set to today. -/
def incrementImageCount (stats : List TokenStats) (token_id : Int) (today : Int) :
    List TokenStats :=
  let rollover := statsRollover stats token_id today
  stats.map fun s =>
    if s.token_id = token_id then
      if rollover then
        { s with image_count := s.image_count + 1, today_image_count := 1,
                 today_date := some today }
      else
        { s with image_count := s.image_count + 1,
                 today_image_count := s.today_image_count + 1,
                 today_date := some today }
    else s

/-- Model of `Database.increment_video_count` (`database.py` lines
552–578), the video counterpart of `incrementImageCount`. -/
def incrementVideoCount (stats : List TokenStats) (token_id : Int) (today : Int) :
    List TokenStats :=
  let rollover := statsRollover stats token_id today
  stats.map fun s =>
    if s.token_id = token_id then
      if rollover then
        { s with video_count := s.video_count + 1, today_video_count := 1,
                 today_date := some today }
      else
        { s with video_count := s.video_count + 1,
                 today_video_count := s.today_video_count + 1,
                 today_date := some today }
    else s

/-- Model of `Database.increment_error_count` (`database.py` lines
580–635): `error_count` and `last_error_at` are always written;
`consecutive_error_count` grows only when `increment_consecutive` is
true; `today_error_count` restarts at 1 on a day rollover. -/
def incrementErrorCount (stats : List TokenStats) (token_id : Int)
    (increment_consecutive : Bool) (today now : Int) : List TokenStats :=
  let rollover := statsRollover stats token_id today
  stats.map fun s =>
    if s.token_id = token_id then
      if rollover then
        if increment_consecutive then
          { s with error_count := s.error_count + 1,
                   consecutive_error_count := s.consecutive_error_count + 1,
                   today_error_count := 1, today_date := some today,
                   last_error_at := some now }
        else
          { s with error_count := s.error_count + 1,
                   today_error_count := 1, today_date := some today,
                   last_error_at := some now }
      else
        if increment_consecutive then
          { s with error_count := s.error_count + 1,
                   consecutive_error_count := s.consecutive_error_count + 1,
                   today_error_count := s.today_error_count + 1,
                   today_date := some today, last_error_at := some now }
        else
          { s with error_count := s.error_count + 1,
                   today_error_count := s.today_error_count + 1,
                   today_date := some today, last_error_at := some now }
    else s

/-- Model of `Database.reset_error_count` (`database.py` lines 637–643):
`UPDATE token_stats SET consecutive_error_count = 0 WHERE token_id = $1`. -/
def resetErrorCount (stats : List TokenStats) (token_id : Int) : List TokenStats :=
  stats.map fun s =>
    if s.token_id = token_id then { s with consecutive_error_count := 0 } else s

/-- Store state used by `Database.add_token`: the two tables plus the
next value of the `tokens` id sequence. -/
structure DBState where
  tokens : List Token
  token_stats : List TokenStats
  next_token_id : Int
deriving DecidableEq, Repr

/-- Row inserted by `Database.add_token`'s first `INSERT` (`database.py`
lines 265–279): the listed columns come from the supplied `Token` object;
the columns the statement omits (`cooled_until`, `created_at`,
`last_used_at`, `use_count`, `is_expired`) take their schema defaults,
modelled by the defaults `models.py` declares for the same fields
(`schema.sql` is not part of the sources; `created_at`'s
server-side default timestamp is irrelevant to every claim and modelled
as `NULL`).  The `username` column, set to `""`, has no counterpart in
`models.Token` and is not modelled. -/
def newTokenRow (id : Int) (t : Token) : Token :=
  { t with id := some id, cooled_until := none, created_at := none,
           last_used_at := none, use_count := 0, is_expired := false }

/-- Modelled from the spec: the stats row created by `INSERT INTO
token_stats (token_id) VALUES ($1)` takes every other column from its
schema default.  `schema.sql` is not part of the sources; the defaults
follow the spec's CredentialStats description and the zero defaults
`models.TokenStats` declares: all counters zero, no error timestamp, no
day recorded. -/
def zeroStats (token_id : Int) : TokenStats :=
  { token_id := token_id }

/-- Model of `Database.add_token` (`database.py` lines 260–286): inside
one transaction, insert the token row (the id sequence assigns the new
id) and its stats row.  Modelled from the spec: credentials are "unique
by token" (`schema.sql` carrying the constraint is not in the sources),
so an insert whose token value already exists fails and the transaction
rolls back, leaving the state unchanged; any failure inside
`conn.transaction()` persists neither row. -/
def addToken (db : DBState) (t : Token) : Except String Int × DBState :=
  if db.tokens.any (fun r => r.token = t.token) then
    (Except.error "duplicate key value violates unique constraint", db)
  else
    (Except.ok db.next_token_id,
     { tokens := db.tokens ++ [newTokenRow db.next_token_id t],
       token_stats := db.token_stats ++ [zeroStats db.next_token_id],
       next_token_id := db.next_token_id + 1 })

/-! ### Task-status query (`routes.py` `get_task_status`) -/

/-- Response model mirroring `models.TaskStatusResponse` (lines 226–236):
`result_urls` is declared `Optional[List[str]]` — the fact central to
claim C2.  The `created_at` / `completed_at` fields carry the task's
timestamps (the route renders them with `isoformat()`, a formatting step
irrelevant to every claim and not modelled). -/
structure TaskStatusResponse where
  task_id : String
  status : String
  progress : Rat
  model : String
  prompt : String
  result_urls : Option (List String) := none
  error_message : Option String := none
  created_at : Option Int := none
  completed_at : Option Int := none
deriving DecidableEq, Repr

/-- Outcome of `get_task_status`.  `validationError500` models the
pydantic `ValidationError` raised when `TaskStatusResponse` is
constructed with a value that is not a list of strings (its
version-specific message text is not modelled): the route's generic
`except Exception` turns it into `HTTPException(status_code=500)`. -/
inductive TaskQueryResult where
  | notFound
  | ok (resp : TaskStatusResponse)
  | validationError500
deriving DecidableEq, Repr

/-- Result-shape dispatch of `get_task_status` (`routes.py` lines
106–123): parse the stored `result_urls` JSON; for a
`character-creation` task a parsed dict is kept as-is, any other parsed
non-list is wrapped in a singleton list; for every other model a parsed
non-list is wrapped in a singleton list; a parse failure falls back to a
singleton list holding the raw text; an absent or empty stored value
(Python falsiness) yields `None`. -/
def interpretResultUrls (model : String) (raw : Option String) : Option Json :=
  match raw with
  | none => none
  | some s =>
    if s = "" then none
    else
      match Json.parse s with
      | some p =>
        if model = "character-creation" then
          match p with
          | Json.obj fs => some (Json.obj fs)
          | Json.arr xs => some (Json.arr xs)
          | other => some (Json.arr [other])
        else
          match p with
          | Json.arr xs => some (Json.arr xs)
          | other => some (Json.arr [other])
      | none => some (Json.arr [Json.str s])

/-- Pydantic validation of the `result_urls` field against
`Optional[List[str]]`: `None` passes, a list passes exactly when every
element is a string (pydantic v2 does not coerce other JSON values to
`str`), anything else — in particular a dict — is a `ValidationError`. -/
def validateOptListStr : Option Json → Option (Option (List String))
  | none => some none
  | some (Json.arr xs) =>
    let rec strings : List Json → Option (List String)
      | [] => some []
      | Json.str s :: rest =>
        match strings rest with
        | some ss => some (s :: ss)
        | none => none
      | _ :: _ => none
    match strings xs with
    | some ss => some (some ss)
    | none => none
  | some _ => none

/-- Model of `get_task_status` (`routes.py` lines 84–139): fetch the
task, dispatch the stored result by the task's recorded model, then
construct `TaskStatusResponse`; a value rejected by the response model's
validation becomes the 500 error. -/
def getTaskStatus (tasks : List TaskRow) (task_id : String) : TaskQueryResult :=
  match tasks.find? (fun t => t.task_id = task_id) with
  | none => TaskQueryResult.notFound
  | some task =>
    match validateOptListStr (interpretResultUrls task.model task.result_urls) with
    | some ru =>
      TaskQueryResult.ok
        { task_id := task.task_id, status := task.status, progress := task.progress,
          model := task.model, prompt := task.prompt, result_urls := ru,
          error_message := task.error_message, created_at := task.created_at,
          completed_at := task.completed_at }
    | none => TaskQueryResult.validationError500

/-! ### Streaming error framing (`routes.py` stream handlers) -/

/-- OpenAI-compatible generic error envelope built by every route's
exception handler: `message` is `str(e)`, `type` is `"server_error"`,
`param` and `code` are `null`. -/
def genericErrorJson (msg : String) : Json :=
  Json.obj [("error", Json.obj
    [("message", Json.str msg), ("type", Json.str "server_error"),
     ("param", Json.null), ("code", Json.null)])]

/-- One server-sent event line: `f'data: {json.dumps(j)}\n\n'`. -/
def sseData (j : Json) : String :=
  "data: " ++ Json.dumps j ++ "\n\n"

/-- Literal stream terminator `'data: [DONE]\n\n'`. -/
def sseDone : String := "data: [DONE]\n\n"

/-- Chunks the chat-completions stream generator emits after
`handle_generation` raises with message `e` (`routes.py` lines 257–281):
`json.loads(str(e))` is attempted; when it yields a (truthy, hence
non-empty) dict containing the key `"error"`, that structured payload is
re-serialized verbatim as the event, otherwise the generic envelope is
used; the terminator always follows. -/
def chatStreamErrorTail (e : String) : List String :=
  match Json.parse e with
  | some (Json.obj fs) =>
    if (jsonLookup fs "error").isSome then
      [sseData (Json.obj fs), sseDone]
    else
      [sseData (genericErrorJson e), sseDone]
  | _ => [sseData (genericErrorJson e), sseDone]

/-- Chunks the `generate_image` stream generator emits after
`handle_generation` raises with message `e` (`routes.py` lines 385–396):
the exception is always flattened into the generic envelope — no
structured-error parse is attempted — and the terminator follows. -/
def imageStreamErrorTail (e : String) : List String :=
  [sseData (genericErrorJson e), sseDone]

/-- Specification-side wire shape of a terminal streaming error: a JSON
document with a top-level `error` object containing the four fields
`message`, `type`, `param`, `code`. -/
def IsErrorEnvelope (j : Json) : Prop :=
  ∃ fs inner, j = Json.obj fs ∧ jsonLookup fs "error" = some (Json.obj inner) ∧
    (jsonLookup inner "message").isSome = true ∧
    (jsonLookup inner "type").isSome = true ∧
    (jsonLookup inner "param").isSome = true ∧
    (jsonLookup inner "code").isSome = true

/-! ### Character-creation endpoint (`routes.py` `create_character`) -/

/-- Request model mirroring `models.CharacterCreateRequest` (lines
213–217).  Note that it declares no `timestamps` field. -/
structure CharacterCreateRequest where
  video : String
  stream : Bool := false
  async_mode : Bool := false
deriving DecidableEq, Repr

/-- Video-data normalization of `create_character` (`routes.py` lines
1038–1046): URLs pass through, a video/application data URI is reduced to
the part after its first `"base64,"`, anything else passes through. -/
def normalizeVideoData (v : String) : String :=
  if v.startsWith "http://" || v.startsWith "https://" then v
  else if v.startsWith "data:video" || v.startsWith "data:application" then
    match v.splitOn "base64," with
    | [] => v
    | [_] => v
    | _ :: rest => String.intercalate "base64," rest
  else v

/-- Observable outcome of the `create_character` route. -/
inductive CharCreateOutcome where
  /-- A 200 `StreamingResponse` wrapping
  `_handle_character_creation_only(video_data, model_config, request.timestamps)`.
  (The generator body still evaluates `request.timestamps`; the resulting
  exception is handled inside the stream, outside this route model.) -/
  | streamResponse (video : String)
  /-- A `StreamingResponse` produced by the outer exception handler's
  `error_generate` when the request declared streaming. -/
  | errorStream
  /-- A `JSONResponse` with the given HTTP status code and body. -/
  | jsonResponse (status : Int) (body : Json)

/-- Body of the 400 rejection of non-streaming character creation
(`routes.py` lines 1103–1113). -/
def charCreateReject400Body : Json :=
  Json.obj [("error", Json.obj
    [("message", Json.str "Character creation requires streaming mode. Please set stream=true"),
     ("type", Json.str "invalid_request_error"),
     ("param", Json.str "stream"),
     ("code", Json.null)])]

/-- Message of the `AttributeError` raised by `request.timestamps`:
`models.CharacterCreateRequest` declares no `timestamps` field, so the
attribute access in the `async_mode` branch (`routes.py` line 1052)
raises before `submit_character_creation_task` is called.  (The exact
pydantic message text is version-dependent; this is pydantic v2's.) -/
def charAttrErrorMsg : String :=
  "'CharacterCreateRequest' object has no attribute 'timestamps'"

/-- Model of the `create_character` route (`routes.py` lines 1027–1151):
normalize the video; in async mode the `request.timestamps` access
raises `AttributeError` before any task is submitted, and the outer
handler answers with a generic 500 JSON error (or an error stream when
`stream=true`); otherwise a streaming request gets the streaming
response and a non-streaming request the 400 rejection naming the
`stream` parameter.  No branch except `streamResponse` reaches the
generation handler. -/
def createCharacterRoute (req : CharacterCreateRequest) : CharCreateOutcome :=
  let video := normalizeVideoData req.video
  if req.async_mode then
    if req.stream then CharCreateOutcome.errorStream
    else CharCreateOutcome.jsonResponse 500 (genericErrorJson charAttrErrorMsg)
  else if req.stream then
    CharCreateOutcome.streamResponse video
  else
    CharCreateOutcome.jsonResponse 400 charCreateReject400Body

/-! ### Properties of the remix-identifier search -/

/-- A successful match at a position yields a remix-shaped prefix of the
input. -/
theorem remixMatchAt_some {cs m : List Char} (h : remixMatchAt cs = some m) :
    IsRemixIdShape m ∧ ∃ rest, cs = m ++ rest := by
  unfold remixMatchAt at h
  split at h
  next c1 c2 rest =>
    split at h
    next hsc =>
      split at h
      next hhex =>
        injection h with hm
        subst hm
        obtain ⟨h1, h2⟩ := hsc
        subst h1; subst h2
        exact ⟨⟨rest.take 32, rfl, hhex.1, List.all_eq_true.mp hhex.2⟩, rest.drop 32, by simp⟩
      next => exact absurd h (by simp)
    next => exact absurd h (by simp)
  next => exact absurd h (by simp)

/-- Conversely, a remix-shaped list is matched at the position where it
starts, whatever follows it. -/
theorem remixMatchAt_of_shape {m : List Char} (rest : List Char)
    (h : IsRemixIdShape m) : remixMatchAt (m ++ rest) = some m := by
  obtain ⟨hex, rfl, hlen, hall⟩ := h
  have htake : (hex ++ rest).take 32 = hex := List.take_left' hlen
  show remixMatchAt ('s' :: '_' :: (hex ++ rest)) = _
  simp only [remixMatchAt, htake]
  simp [hlen, List.all_eq_true.mpr hall]

/-- When the search fails there is no occurrence of the remix shape
anywhere in the input. -/
theorem remixSearch_none {cs : List Char} (h : remixSearch cs = none) :
    ∀ pre m post, cs = pre ++ m ++ post → IsRemixIdShape m → False := by
  induction cs with
  | nil =>
    intro pre m post heq hm
    obtain ⟨hex, rfl, _, _⟩ := hm
    simp at heq
  | cons c rest ih =>
    have h1 : remixMatchAt (c :: rest) = none := by
      cases hma : remixMatchAt (c :: rest) with
      | none => rfl
      | some m0 => rw [remixSearch, hma] at h; exact absurd h (by simp)
    have h2 : remixSearch rest = none := by rwa [remixSearch, h1] at h
    intro pre m post heq hm
    cases pre with
    | nil =>
      have hmm := remixMatchAt_of_shape post hm
      simp only [List.nil_append] at heq
      rw [← heq] at hmm
      rw [h1] at hmm
      exact Option.noConfusion hmm
    | cons p pre2 =>
      have heq2 : rest = pre2 ++ m ++ post := by
        simpa using congrArg List.tail heq
      exact ih h2 pre2 m post heq2 hm

/-- When the search succeeds it returns the leftmost occurrence of the
remix shape. -/
theorem remixSearch_some {cs m : List Char} (h : remixSearch cs = some m) :
    FirstRemixOccurrence cs m := by
  induction cs generalizing m with
  | nil => simp [remixSearch] at h
  | cons c rest ih =>
    cases hma : remixMatchAt (c :: rest) with
    | some m0 =>
      rw [remixSearch, hma] at h
      injection h with hm
      subst hm
      obtain ⟨hshape, rest2, heq⟩ := remixMatchAt_some hma
      exact ⟨[], rest2, by simpa using heq, hshape, fun _ _ _ _ _ => Nat.zero_le _⟩
    | none =>
      rw [remixSearch, hma] at h
      obtain ⟨pre, post, heq, hshape, hmin⟩ := ih h
      refine ⟨c :: pre, post, by simp [heq], hshape, ?_⟩
      intro pre2 m2 post2 heq2 hm2
      cases pre2 with
      | nil =>
        exfalso
        have hmm := remixMatchAt_of_shape post2 hm2
        simp only [List.nil_append] at heq2
        rw [← heq2] at hmm
        rw [hma] at hmm
        exact Option.noConfusion hmm
      | cons p2 pre3 =>
        have heq3 : rest = pre3 ++ m2 ++ post2 := by
          simpa using congrArg List.tail heq2
        have := hmin pre3 m2 post2 heq3 hm2
        simpa using Nat.succ_le_succ this

/-- Concrete prompt of the spec scenario: a full share URL carrying a
remix identifier. -/
def c3ScenarioPrompt : String :=
  "https://sora.chatgpt.com/p/s_68e3a06dcd888191b150971da152c1f5"

/-- C3: for every prompt, when no explicit remix identifier is supplied
the chat-completion route derives the identifier with
`_extract_remix_id`, which returns the leftmost occurrence of the shape
`s_` + 32 lowercase hexadecimal characters (wherever it occurs — inside
a URL or bare) and the empty string when there is no occurrence; when a
non-empty explicit `remix_target_id` is supplied the prompt is never
scanned and the explicit value is used unchanged.  (An explicit empty
string is falsy in Python and treated exactly like an absent
identifier.) -/
theorem c3_remix_id_extraction (prompt t : String) (ht : t ≠ "") :
    effectiveRemixId prompt (some t) = t ∧
    effectiveRemixId prompt none = extractRemixId prompt ∧
    ((extractRemixId prompt = "" ∧
        ∀ pre m post, prompt.toList = pre ++ m ++ post → IsRemixIdShape m → False) ∨
      FirstRemixOccurrence prompt.toList (extractRemixId prompt).toList) := by
  refine ⟨by simp [effectiveRemixId, ht], rfl, ?_⟩
  unfold extractRemixId
  by_cases hp : prompt = ""
  · rw [if_pos hp]
    left
    refine ⟨rfl, ?_⟩
    intro pre m post heq hm
    obtain ⟨hex, rfl, _, _⟩ := hm
    rw [hp] at heq
    simp at heq
  · rw [if_neg hp]
    cases hs : remixSearch prompt.toList with
    | none => exact Or.inl ⟨rfl, remixSearch_none hs⟩
    | some m => exact Or.inr (remixSearch_some hs)

/-- Witness for C3 at the spec's scenario prompt: an explicit identifier
suppresses scanning, an absent identifier scans, and the scan of the
share URL yields exactly the embedded identifier. -/
theorem c3_remix_id_extraction_witness :
    effectiveRemixId c3ScenarioPrompt (some "s_ffffffffffffffffffffffffffffffff")
        = "s_ffffffffffffffffffffffffffffffff" ∧
    effectiveRemixId c3ScenarioPrompt none = extractRemixId c3ScenarioPrompt ∧
    extractRemixId c3ScenarioPrompt = "s_68e3a06dcd888191b150971da152c1f5" :=
  ⟨(c3_remix_id_extraction c3ScenarioPrompt "s_ffffffffffffffffffffffffffffffff"
      (by decide)).1,
   (c3_remix_id_extraction c3ScenarioPrompt "s_ffffffffffffffffffffffffffffffff"
      (by decide)).2.1,
   by decide⟩

/-! ### Claim C9: `mark_token_expired` frame property -/

/-- C9: `Database.mark_token_expired` sets `is_expired := true` and
`is_active := false` on every row whose id matches, leaves each of that
row's other fields unchanged, and leaves every row with a different id
entirely unchanged. -/
theorem c9_mark_token_expired (tokens : List Token) (token_id : Int) (i : Nat)
    (h : i < tokens.length) (h2 : i < (markTokenExpired tokens token_id).length) :
    ((tokens.get ⟨i, h⟩).id = some token_id →
      ((markTokenExpired tokens token_id).get ⟨i, h2⟩).is_expired = true ∧
      ((markTokenExpired tokens token_id).get ⟨i, h2⟩).is_active = false ∧
      ((markTokenExpired tokens token_id).get ⟨i, h2⟩).id = (tokens.get ⟨i, h⟩).id ∧
      ((markTokenExpired tokens token_id).get ⟨i, h2⟩).token = (tokens.get ⟨i, h⟩).token ∧
      ((markTokenExpired tokens token_id).get ⟨i, h2⟩).email = (tokens.get ⟨i, h⟩).email ∧
      ((markTokenExpired tokens token_id).get ⟨i, h2⟩).name = (tokens.get ⟨i, h⟩).name ∧
      ((markTokenExpired tokens token_id).get ⟨i, h2⟩).st = (tokens.get ⟨i, h⟩).st ∧
      ((markTokenExpired tokens token_id).get ⟨i, h2⟩).rt = (tokens.get ⟨i, h⟩).rt ∧
      ((markTokenExpired tokens token_id).get ⟨i, h2⟩).client_id = (tokens.get ⟨i, h⟩).client_id ∧
      ((markTokenExpired tokens token_id).get ⟨i, h2⟩).proxy_url = (tokens.get ⟨i, h⟩).proxy_url ∧
      ((markTokenExpired tokens token_id).get ⟨i, h2⟩).remark = (tokens.get ⟨i, h⟩).remark ∧
      ((markTokenExpired tokens token_id).get ⟨i, h2⟩).expiry_time = (tokens.get ⟨i, h⟩).expiry_time ∧
      ((markTokenExpired tokens token_id).get ⟨i, h2⟩).cooled_until = (tokens.get ⟨i, h⟩).cooled_until ∧
      ((markTokenExpired tokens token_id).get ⟨i, h2⟩).created_at = (tokens.get ⟨i, h⟩).created_at ∧
      ((markTokenExpired tokens token_id).get ⟨i, h2⟩).last_used_at = (tokens.get ⟨i, h⟩).last_used_at ∧
      ((markTokenExpired tokens token_id).get ⟨i, h2⟩).use_count = (tokens.get ⟨i, h⟩).use_count ∧
      ((markTokenExpired tokens token_id).get ⟨i, h2⟩).plan_type = (tokens.get ⟨i, h⟩).plan_type ∧
      ((markTokenExpired tokens token_id).get ⟨i, h2⟩).plan_title = (tokens.get ⟨i, h⟩).plan_title ∧
      ((markTokenExpired tokens token_id).get ⟨i, h2⟩).subscription_end = (tokens.get ⟨i, h⟩).subscription_end ∧
      ((markTokenExpired tokens token_id).get ⟨i, h2⟩).sora2_supported = (tokens.get ⟨i, h⟩).sora2_supported ∧
      ((markTokenExpired tokens token_id).get ⟨i, h2⟩).sora2_invite_code = (tokens.get ⟨i, h⟩).sora2_invite_code ∧
      ((markTokenExpired tokens token_id).get ⟨i, h2⟩).sora2_redeemed_count = (tokens.get ⟨i, h⟩).sora2_redeemed_count ∧
      ((markTokenExpired tokens token_id).get ⟨i, h2⟩).sora2_total_count = (tokens.get ⟨i, h⟩).sora2_total_count ∧
      ((markTokenExpired tokens token_id).get ⟨i, h2⟩).sora2_remaining_count = (tokens.get ⟨i, h⟩).sora2_remaining_count ∧
      ((markTokenExpired tokens token_id).get ⟨i, h2⟩).sora2_cooldown_until = (tokens.get ⟨i, h⟩).sora2_cooldown_until ∧
      ((markTokenExpired tokens token_id).get ⟨i, h2⟩).image_enabled = (tokens.get ⟨i, h⟩).image_enabled ∧
      ((markTokenExpired tokens token_id).get ⟨i, h2⟩).video_enabled = (tokens.get ⟨i, h⟩).video_enabled ∧
      ((markTokenExpired tokens token_id).get ⟨i, h2⟩).image_concurrency = (tokens.get ⟨i, h⟩).image_concurrency ∧
      ((markTokenExpired tokens token_id).get ⟨i, h2⟩).video_concurrency = (tokens.get ⟨i, h⟩).video_concurrency) ∧
    ((tokens.get ⟨i, h⟩).id ≠ some token_id →
      (markTokenExpired tokens token_id).get ⟨i, h2⟩ = tokens.get ⟨i, h⟩) := by
  simp only [markTokenExpired, List.get_eq_getElem, List.getElem_map]
  constructor
  · intro hid
    simp [hid]
  · intro hid
    simp [hid]

/-- Sample credential row used by the C9 witness. -/
def c9SampleToken : Token :=
  { id := some 7, token := "tok-7", email := "seven@example.com", use_count := 3,
    last_used_at := some 50 }

/-- Witness for C9: on a one-row table holding credential id 7, marking
id 7 expired flips the two flags and keeps the token value. -/
theorem c9_mark_token_expired_witness :
    ((markTokenExpired [c9SampleToken] 7).get ⟨0, by decide⟩).is_expired = true ∧
    ((markTokenExpired [c9SampleToken] 7).get ⟨0, by decide⟩).is_active = false ∧
    ((markTokenExpired [c9SampleToken] 7).get ⟨0, by decide⟩).token
      = ([c9SampleToken].get ⟨0, by decide⟩).token := by
  have h := (c9_mark_token_expired [c9SampleToken] 7 0 (by decide) (by decide)).1 (by decide)
  exact ⟨h.1, h.2.1, h.2.2.2.1⟩

/-! ### Claims C6 and C8: token statistics -/

/-- C6: every `increment_error_count` on a credential's stats row raises
the historical `error_count` by exactly 1 and stamps `last_error_at`,
and raises `consecutive_error_count` by exactly 1 precisely when
`increment_consecutive` is true (the flag callers clear for
rate-limited/overload errors); with the flag false the consecutive count
is untouched.  Rows of other credentials are unchanged. -/
theorem c6_increment_error_count (stats : List TokenStats) (token_id : Int)
    (inc : Bool) (today now : Int) (i : Nat) (h : i < stats.length)
    (h2 : i < (incrementErrorCount stats token_id inc today now).length) :
    ((stats.get ⟨i, h⟩).token_id = token_id →
      ((incrementErrorCount stats token_id inc today now).get ⟨i, h2⟩).error_count
          = (stats.get ⟨i, h⟩).error_count + 1 ∧
      ((incrementErrorCount stats token_id inc today now).get ⟨i, h2⟩).last_error_at
          = some now ∧
      (inc = true →
        ((incrementErrorCount stats token_id inc today now).get ⟨i, h2⟩).consecutive_error_count
          = (stats.get ⟨i, h⟩).consecutive_error_count + 1) ∧
      (inc = false →
        ((incrementErrorCount stats token_id inc today now).get ⟨i, h2⟩).consecutive_error_count
          = (stats.get ⟨i, h⟩).consecutive_error_count)) ∧
    ((stats.get ⟨i, h⟩).token_id ≠ token_id →
      (incrementErrorCount stats token_id inc today now).get ⟨i, h2⟩ = stats.get ⟨i, h⟩) := by
  simp only [incrementErrorCount, List.get_eq_getElem, List.getElem_map]
  constructor
  · intro hid
    cases inc <;> by_cases hr : statsRollover stats token_id today <;> simp [hid, hr]
  · intro hid
    simp [hid]

/-- Sample stats row used by the C6 witness. -/
def c6SampleStats : TokenStats :=
  { token_id := 4, error_count := 10, consecutive_error_count := 2,
    today_error_count := 5, today_date := some 700 }

/-- Witness for C6: a rate-limited-style call (`increment_consecutive =
false`) on the sample row bumps the historical total to 11, stamps the
error time, and leaves the consecutive count at 2. -/
theorem c6_increment_error_count_witness :
    ((incrementErrorCount [c6SampleStats] 4 false 700 900).get ⟨0, by decide⟩).error_count
        = ([c6SampleStats].get ⟨0, by decide⟩).error_count + 1 ∧
    ((incrementErrorCount [c6SampleStats] 4 false 700 900).get ⟨0, by decide⟩).last_error_at
        = some 900 ∧
    ((incrementErrorCount [c6SampleStats] 4 false 700 900).get ⟨0, by decide⟩).consecutive_error_count
        = ([c6SampleStats].get ⟨0, by decide⟩).consecutive_error_count := by
  have h := (c6_increment_error_count [c6SampleStats] 4 false 700 900 0
    (by decide) (by decide)).1 (by decide)
  exact ⟨h.1, h.2.1, h.2.2.2 rfl⟩

/-- C8: the historical totals are preserved or incremented by exactly
one by every stats operation, also on a day rollover (when the same-day
counter restarts at 1), and `reset_error_count` zeroes only the
consecutive-error counter, leaving every other field — in particular all
historical totals — unchanged. -/
theorem c8_historical_totals (stats : List TokenStats) (token_id : Int)
    (inc : Bool) (today now : Int) (i : Nat) (h : i < stats.length)
    (hI : i < (incrementImageCount stats token_id today).length)
    (hV : i < (incrementVideoCount stats token_id today).length)
    (hE : i < (incrementErrorCount stats token_id inc today now).length)
    (hR : i < (resetErrorCount stats token_id).length) :
    (((stats.get ⟨i, h⟩).token_id = token_id →
        ((incrementImageCount stats token_id today).get ⟨i, hI⟩).image_count
            = (stats.get ⟨i, h⟩).image_count + 1 ∧
        ((incrementImageCount stats token_id today).get ⟨i, hI⟩).video_count
            = (stats.get ⟨i, h⟩).video_count ∧
        ((incrementImageCount stats token_id today).get ⟨i, hI⟩).error_count
            = (stats.get ⟨i, h⟩).error_count ∧
        (statsRollover stats token_id today = true →
          ((incrementImageCount stats token_id today).get ⟨i, hI⟩).today_image_count = 1)) ∧
      ((stats.get ⟨i, h⟩).token_id ≠ token_id →
        (incrementImageCount stats token_id today).get ⟨i, hI⟩ = stats.get ⟨i, h⟩)) ∧
    (((stats.get ⟨i, h⟩).token_id = token_id →
        ((incrementVideoCount stats token_id today).get ⟨i, hV⟩).video_count
            = (stats.get ⟨i, h⟩).video_count + 1 ∧
        ((incrementVideoCount stats token_id today).get ⟨i, hV⟩).image_count
            = (stats.get ⟨i, h⟩).image_count ∧
        ((incrementVideoCount stats token_id today).get ⟨i, hV⟩).error_count
            = (stats.get ⟨i, h⟩).error_count ∧
        (statsRollover stats token_id today = true →
          ((incrementVideoCount stats token_id today).get ⟨i, hV⟩).today_video_count = 1)) ∧
      ((stats.get ⟨i, h⟩).token_id ≠ token_id →
        (incrementVideoCount stats token_id today).get ⟨i, hV⟩ = stats.get ⟨i, h⟩)) ∧
    (((stats.get ⟨i, h⟩).token_id = token_id →
        ((incrementErrorCount stats token_id inc today now).get ⟨i, hE⟩).error_count
            = (stats.get ⟨i, h⟩).error_count + 1 ∧
        ((incrementErrorCount stats token_id inc today now).get ⟨i, hE⟩).image_count
            = (stats.get ⟨i, h⟩).image_count ∧
        ((incrementErrorCount stats token_id inc today now).get ⟨i, hE⟩).video_count
            = (stats.get ⟨i, h⟩).video_count ∧
        (statsRollover stats token_id today = true →
          ((incrementErrorCount stats token_id inc today now).get ⟨i, hE⟩).today_error_count = 1)) ∧
      ((stats.get ⟨i, h⟩).token_id ≠ token_id →
        (incrementErrorCount stats token_id inc today now).get ⟨i, hE⟩ = stats.get ⟨i, h⟩)) ∧
    (((stats.get ⟨i, h⟩).token_id = token_id →
        ((resetErrorCount stats token_id).get ⟨i, hR⟩).consecutive_error_count = 0 ∧
        ((resetErrorCount stats token_id).get ⟨i, hR⟩).image_count
            = (stats.get ⟨i, h⟩).image_count ∧
        ((resetErrorCount stats token_id).get ⟨i, hR⟩).video_count
            = (stats.get ⟨i, h⟩).video_count ∧
        ((resetErrorCount stats token_id).get ⟨i, hR⟩).error_count
            = (stats.get ⟨i, h⟩).error_count ∧
        ((resetErrorCount stats token_id).get ⟨i, hR⟩).today_image_count
            = (stats.get ⟨i, h⟩).today_image_count ∧
        ((resetErrorCount stats token_id).get ⟨i, hR⟩).today_video_count
            = (stats.get ⟨i, h⟩).today_video_count ∧
        ((resetErrorCount stats token_id).get ⟨i, hR⟩).today_error_count
            = (stats.get ⟨i, h⟩).today_error_count ∧
        ((resetErrorCount stats token_id).get ⟨i, hR⟩).last_error_at
            = (stats.get ⟨i, h⟩).last_error_at ∧
        ((resetErrorCount stats token_id).get ⟨i, hR⟩).today_date
            = (stats.get ⟨i, h⟩).today_date) ∧
      ((stats.get ⟨i, h⟩).token_id ≠ token_id →
        (resetErrorCount stats token_id).get ⟨i, hR⟩ = stats.get ⟨i, h⟩)) := by
  refine ⟨⟨?_, ?_⟩, ⟨?_, ?_⟩, ⟨?_, ?_⟩, ⟨?_, ?_⟩⟩ <;>
    simp only [incrementImageCount, incrementVideoCount, incrementErrorCount,
      resetErrorCount, List.get_eq_getElem, List.getElem_map] <;>
    intro hid
  · by_cases hr : statsRollover stats token_id today <;> simp [hid, hr]
  · simp [hid]
  · by_cases hr : statsRollover stats token_id today <;> simp [hid, hr]
  · simp [hid]
  · cases inc <;> by_cases hr : statsRollover stats token_id today <;> simp [hid, hr]
  · simp [hid]
  · simp [hid]
  · simp [hid]

/-- Stats row used by the C8 witness, dated yesterday so that the
increments roll the day over. -/
def c8SampleStats : TokenStats :=
  { token_id := 9, image_count := 20, video_count := 30, error_count := 40,
    today_image_count := 6, today_video_count := 7, today_error_count := 8,
    today_date := some 699, consecutive_error_count := 2 }

/-- Witness for C8: on a rollover day the historical image total still
grows by exactly one while the same-day counter restarts at 1, and a
reset leaves the historical error total while zeroing the consecutive
counter. -/
theorem c8_historical_totals_witness :
    ((incrementImageCount [c8SampleStats] 9 700).get ⟨0, by decide⟩).image_count
        = ([c8SampleStats].get ⟨0, by decide⟩).image_count + 1 ∧
    ((incrementImageCount [c8SampleStats] 9 700).get ⟨0, by decide⟩).today_image_count = 1 ∧
    ((resetErrorCount [c8SampleStats] 9).get ⟨0, by decide⟩).error_count
        = ([c8SampleStats].get ⟨0, by decide⟩).error_count ∧
    ((resetErrorCount [c8SampleStats] 9).get ⟨0, by decide⟩).consecutive_error_count = 0 := by
  have h := c8_historical_totals [c8SampleStats] 9 true 700 900 0
    (by decide) (by decide) (by decide) (by decide) (by decide)
  have hImg := h.1.1 (by decide)
  have hReset := h.2.2.2.1 (by decide)
  exact ⟨hImg.1, hImg.2.2.2 (by decide), hReset.2.2.2.1, hReset.1⟩

/-! ### Claim C4: `get_active_tokens` -/

/-- Transitivity of the `NULLS FIRST` last-used comparison. -/
theorem lastUsedLE_trans (a b c : Token) (hab : lastUsedLE a b) (hbc : lastUsedLE b c) :
    lastUsedLE a c := by
  unfold lastUsedLE at *
  rcases ha : a.last_used_at with _ | x <;> rcases hb : b.last_used_at with _ | y <;>
    rcases hc : c.last_used_at with _ | z <;> simp_all <;> omega

/-- Totality of the `NULLS FIRST` last-used comparison. -/
theorem lastUsedLE_total (a b : Token) : lastUsedLE a b || lastUsedLE b a := by
  unfold lastUsedLE
  cases a.last_used_at <;> cases b.last_used_at <;> simp <;> omega

/-- The SQL `WHERE` clause of `get_active_tokens`, spelled as the spec
describes it. -/
theorem activeTokenCond_iff (now : Int) (t : Token) :
    activeTokenCond now t = true ↔
      t.is_active = true ∧
      (t.cooled_until = none ∨ ∃ c, t.cooled_until = some c ∧ c < now) ∧
      (t.expiry_time = none ∨ ∃ e, t.expiry_time = some e ∧ now < e) := by
  unfold activeTokenCond
  cases hcu : t.cooled_until <;> cases het : t.expiry_time <;> simp [and_assoc]

/-- C4: every credential returned by `get_active_tokens` is active, has
no pending cooldown (`NULL` or strictly past) and no reached expiry
(`NULL` or strictly future); every credential of the table satisfying
those conditions is returned; and the result is ordered by last-used
time ascending with never-used (`NULL`) credentials first. -/
theorem c4_get_active_tokens (tokens : List Token) (now : Int) :
    (∀ t ∈ getActiveTokens tokens now,
      t.is_active = true ∧
      (t.cooled_until = none ∨ ∃ c, t.cooled_until = some c ∧ c < now) ∧
      (t.expiry_time = none ∨ ∃ e, t.expiry_time = some e ∧ now < e)) ∧
    (∀ t ∈ tokens,
      t.is_active = true →
      (t.cooled_until = none ∨ ∃ c, t.cooled_until = some c ∧ c < now) →
      (t.expiry_time = none ∨ ∃ e, t.expiry_time = some e ∧ now < e) →
      t ∈ getActiveTokens tokens now) ∧
    (getActiveTokens tokens now).Pairwise (fun a b => lastUsedLE a b = true) := by
  refine ⟨?_, ?_, ?_⟩
  · intro t ht
    rw [getActiveTokens, List.mem_mergeSort] at ht
    exact (activeTokenCond_iff now t).mp (List.mem_filter.mp ht).2
  · intro t ht h1 h2 h3
    rw [getActiveTokens, List.mem_mergeSort]
    exact List.mem_filter.mpr ⟨ht, (activeTokenCond_iff now t).mpr ⟨h1, h2, h3⟩⟩
  · exact List.sorted_mergeSort lastUsedLE_trans lastUsedLE_total _

/-- Never-used active credential for the C4 witness. -/
def c4TokenA : Token := { token := "a", email := "a@example.com" }

/-- Cooled-down credential for the C4 witness. -/
def c4TokenB : Token := { token := "b", email := "b@example.com", cooled_until := some 500 }

/-- Witness for C4: with `now = 100`, the never-used active credential is
selected from a two-row table whose other row is still cooling down. -/
theorem c4_get_active_tokens_witness :
    c4TokenA ∈ getActiveTokens [c4TokenB, c4TokenA] 100 :=
  (c4_get_active_tokens [c4TokenB, c4TokenA] 100).2.1 c4TokenA (by simp)
    rfl (Or.inl rfl) (Or.inl rfl)

/-! ### Claim C10: `add_token` -/

/-- C10: provided the id sequence is fresh (no stats row already carries
the next id — an invariant of the sequence), a successful `add_token`
leaves the store with exactly one `token_stats` row for the new
credential, holding zero image/video/error/consecutive-error counters,
and appends exactly one credential row carrying the supplied token
value; a failed `add_token` (unique-token violation) changes nothing,
the transaction persisting neither row. -/
theorem c10_add_token (db : DBState) (t : Token)
    (hfresh : ∀ s ∈ db.token_stats, s.token_id ≠ db.next_token_id) :
    (∀ msg, (addToken db t).1 = Except.error msg → (addToken db t).2 = db) ∧
    (∀ id, (addToken db t).1 = Except.ok id →
      (addToken db t).2.token_stats.filter (fun s => s.token_id = id) = [zeroStats id] ∧
      (zeroStats id).image_count = 0 ∧ (zeroStats id).video_count = 0 ∧
      (zeroStats id).error_count = 0 ∧ (zeroStats id).consecutive_error_count = 0 ∧
      ∃ row, (addToken db t).2.tokens = db.tokens ++ [row] ∧ row.token = t.token) := by
  unfold addToken
  by_cases hdup : db.tokens.any (fun r => r.token = t.token)
  · rw [if_pos hdup]
    exact ⟨fun _ _ => rfl, fun id hid => absurd hid (by simp)⟩
  · rw [if_neg hdup]
    refine ⟨fun msg hmsg => absurd hmsg (by simp), fun id hid => ?_⟩
    have hid2 : id = db.next_token_id := by
      injection hid with h'
      exact h'.symm
    subst hid2
    refine ⟨?_, rfl, rfl, rfl, rfl, newTokenRow db.next_token_id t, rfl, rfl⟩
    have hnil : db.token_stats.filter (fun s => s.token_id = db.next_token_id) = [] := by
      rw [List.filter_eq_nil_iff]
      intro s hs
      simpa using hfresh s hs
    simp [List.filter_append, hnil, zeroStats]

/-- Witness for C10: adding a credential to an empty store yields id 1,
one zero-counter stats row for it, and one credential row. -/
theorem c10_add_token_witness :
    (addToken ⟨[], [], 1⟩ { token := "tok-new", email := "n@example.com" }).2.token_stats.filter
        (fun s => s.token_id = 1) = [zeroStats 1] ∧
    (zeroStats 1).image_count = 0 := by
  have h := (c10_add_token ⟨[], [], 1⟩ { token := "tok-new", email := "n@example.com" }
    (by intro s hs; simp at hs)).2 1 rfl
  exact ⟨h.1, h.2.1⟩

/-! ### Claim C1: `update_task` -/

/-- C1 (amended): `update_task` writes the supplied status, progress,
result and error values verbatim to every row whose `task_id` matches —
it enforces neither progress monotonicity nor a single terminal
transition — and sets `completed_at` to the current timestamp exactly
when the new status is `completed` or `failed` (and back to `NULL`
otherwise); rows with a different `task_id` are untouched (they remain
members of the table). -/
theorem c1_update_task_amended (tasks : List TaskRow) (task_id status : String)
    (progress : Rat) (result_urls error_message : Option String) (now : Int) :
    (∀ t ∈ updateTask tasks task_id status progress result_urls error_message now,
      t.task_id = task_id →
        t.status = status ∧ t.progress = progress ∧ t.result_urls = result_urls ∧
        t.error_message = error_message ∧
        ((status = "completed" ∨ status = "failed") → t.completed_at = some now) ∧
        (status ≠ "completed" → status ≠ "failed" → t.completed_at = none)) ∧
    (∀ t ∈ tasks, t.task_id ≠ task_id →
      t ∈ updateTask tasks task_id status progress result_urls error_message now) := by
  constructor
  · intro t ht hid
    obtain ⟨t0, ht0, rfl⟩ := List.mem_map.mp ht
    by_cases h0 : t0.task_id = task_id
    · simp only [updateTask] at *
      rw [if_pos h0]
      refine ⟨rfl, rfl, rfl, rfl, ?_, ?_⟩
      · intro hterm
        simp [if_pos hterm]
      · intro hnc hnf
        simp [hnc, hnf]
    · rw [if_neg h0] at hid
      exact absurd hid h0
  · intro t ht hid
    refine List.mem_map.mpr ⟨t, ht, ?_⟩
    rw [if_neg hid]

/-- Initial row for the C1 trace: freshly created, processing, progress 0. -/
def c1Task0 : TaskRow := { task_id := "tk1", token_id := 1, model := "gpt-image", prompt := "p" }

/-- Table after the first update of the C1 trace. -/
def c1Db1 : List TaskRow := updateTask [c1Task0] "tk1" "processing" 50 none none 101

/-- Table after the second update of the C1 trace. -/
def c1Db2 : List TaskRow := updateTask c1Db1 "tk1" "processing" 30 none none 102

/-- Table after the third update of the C1 trace. -/
def c1Db3 : List TaskRow := updateTask c1Db2 "tk1" "completed" 100 (some "[]") none 103

/-- Table after the fourth update of the C1 trace. -/
def c1Db4 : List TaskRow := updateTask c1Db3 "tk1" "processing" 10 none none 104

/-- Table after the fifth update of the C1 trace. -/
def c1Db5 : List TaskRow := updateTask c1Db4 "tk1" "completed" 100 (some "[]") none 105

/-- Counterexample to C1 as stated: `update_task` accepts any sequence
of calls, so on the recorded trace the stored progress decreases from 50
to 30 while the status is `processing`, and the task transitions from
`processing` to a terminal status twice (updates 3 and 5, with update 4
re-opening the completed task).  The invariant holds only of call
sequences the (out-of-scope) callers keep well-formed; `update_task`
itself does not enforce it. -/
theorem c1_update_task_counterexample :
    (c1Db1.map TaskRow.status = ["processing"] ∧
     c1Db2.map TaskRow.status = ["processing"] ∧
     c1Db1.map TaskRow.progress = [50] ∧
     c1Db2.map TaskRow.progress = [30] ∧ (30 : Rat) < 50) ∧
    (c1Db3.map TaskRow.status = ["completed"] ∧
     c1Db4.map TaskRow.status = ["processing"] ∧
     c1Db4.map TaskRow.completed_at = [none] ∧
     c1Db5.map TaskRow.status = ["completed"]) := by
  decide

/-- Witness for the amended C1 theorem: a terminal update writes the
given status and stamps `completed_at`. -/
theorem c1_update_task_amended_witness :
    ∀ t ∈ updateTask [c1Task0] "tk1" "failed" 80 none (some "boom") 200,
      t.task_id = "tk1" →
        t.status = "failed" ∧ t.progress = 80 ∧ t.result_urls = none ∧
        t.error_message = some "boom" ∧ t.completed_at = some 200 := by
  intro t ht hid
  have h := (c1_update_task_amended [c1Task0] "tk1" "failed" 80 none (some "boom") 200).1
    t ht hid
  exact ⟨h.1, h.2.1, h.2.2.1, h.2.2.2.1, h.2.2.2.2.1 (Or.inr rfl)⟩

/-! ### Claim C5: non-streaming character creation -/

/-- Non-streaming async-mode request used against C5. -/
def c5Req : CharacterCreateRequest :=
  { video := "data:video/mp4;base64,QUJD", stream := false, async_mode := true }

/-- Counterexample to C5 as stated: a non-streaming call with
`async_mode = true` is not rejected with the 400 `invalid_request_error`
naming `stream` — the async branch answers first, and in the current
code its `request.timestamps` access fails, producing a generic 500
response.  (No generation is started for it either way, but the claimed
client error never occurs.) -/
theorem c5_create_character_counterexample :
    createCharacterRoute c5Req
        = CharCreateOutcome.jsonResponse 500 (genericErrorJson charAttrErrorMsg) ∧
    createCharacterRoute c5Req
        ≠ CharCreateOutcome.jsonResponse 400 charCreateReject400Body := by
  refine ⟨rfl, fun h => ?_⟩
  injection h with h1 _
  exact absurd h1 (by decide)

/-- C5 (amended): every non-streaming, non-async call to the
character-creation endpoint is rejected with HTTP 400, an error object
of type `invalid_request_error` naming the `stream` parameter, and no
generation is started for it (the outcome is never a streaming
response, the only outcome that reaches the generation handler). -/
theorem c5_create_character_amended (req : CharacterCreateRequest)
    (hasync : req.async_mode = false) (hstream : req.stream = false) :
    createCharacterRoute req = CharCreateOutcome.jsonResponse 400 charCreateReject400Body ∧
    (∃ fs inner, charCreateReject400Body = Json.obj fs ∧
      jsonLookup fs "error" = some (Json.obj inner) ∧
      jsonLookup inner "type" = some (Json.str "invalid_request_error") ∧
      jsonLookup inner "param" = some (Json.str "stream")) ∧
    ∀ v, createCharacterRoute req ≠ CharCreateOutcome.streamResponse v := by
  have hroute : createCharacterRoute req
      = CharCreateOutcome.jsonResponse 400 charCreateReject400Body := by
    unfold createCharacterRoute
    rw [hasync, hstream]
    simp
  refine ⟨hroute, ⟨_, _, rfl, rfl, rfl, rfl⟩, fun v h => ?_⟩
  rw [hroute] at h
  exact CharCreateOutcome.noConfusion h

/-- Witness for the amended C5 theorem at a concrete request. -/
theorem c5_create_character_amended_witness :
    createCharacterRoute { video := "https://example.com/v.mp4" }
        = CharCreateOutcome.jsonResponse 400 charCreateReject400Body :=
  (c5_create_character_amended { video := "https://example.com/v.mp4" } rfl rfl).1

/-! ### Claim C7: mid-stream failure framing -/

/-- Structured upstream error message used against C7: `str(e)` parses
as a JSON object carrying a top-level `error` object. -/
def c7StructuredMsg : String :=
  "\x7b\"error\": \x7b\"message\": \"Unsupported country\", \"type\": \"invalid_request_error\", \"param\": null, \"code\": \"unsupported_country_code\"\x7d\x7d"

/-- The parsed form of `c7StructuredMsg`. -/
def c7StructuredJson : Json :=
  Json.obj [("error", Json.obj
    [("message", Json.str "Unsupported country"),
     ("type", Json.str "invalid_request_error"),
     ("param", Json.null),
     ("code", Json.str "unsupported_country_code")])]

set_option maxRecDepth 4000 in
/-- Counterexample to C7 as stated: on the image-generation route a
mid-stream exception whose payload parses as a structured error is still
flattened into the generic envelope (the chat route preserves it
verbatim), so the "preserving a structured error verbatim" part fails
for `generate_image.generate`.  Both routes do emit exactly one event
followed by the terminator. -/
theorem c7_stream_error_counterexample :
    Json.parse c7StructuredMsg = some c7StructuredJson ∧
    chatStreamErrorTail c7StructuredMsg = [sseData c7StructuredJson, sseDone] ∧
    imageStreamErrorTail c7StructuredMsg
        = [sseData (genericErrorJson c7StructuredMsg), sseDone] ∧
    sseData (genericErrorJson c7StructuredMsg) ≠ sseData c7StructuredJson := by
  refine ⟨rfl, rfl, rfl, ?_⟩
  decide

/-- C7 (amended): after a mid-stream failure each stream emits exactly
one error event followed by the literal terminator, and never ends
without it.  The event is the generic four-field envelope, except on the
chat-completions route when the exception payload parses as a JSON
object with an `error` key, in which case that payload is re-emitted
verbatim (with whatever fields it happens to carry).  The
image-generation route never preserves a structured payload. -/
theorem c7_stream_error_amended (e : String) :
    (∃ j, chatStreamErrorTail e = [sseData j, sseDone] ∧
      ((∃ fs, Json.parse e = some (Json.obj fs) ∧ (jsonLookup fs "error").isSome = true ∧
          j = Json.obj fs) ∨
        (j = genericErrorJson e ∧ IsErrorEnvelope j))) ∧
    imageStreamErrorTail e = [sseData (genericErrorJson e), sseDone] ∧
    IsErrorEnvelope (genericErrorJson e) := by
  have henv : IsErrorEnvelope (genericErrorJson e) := ⟨_, _, rfl, rfl, rfl, rfl, rfl, rfl⟩
  refine ⟨?_, rfl, henv⟩
  cases hp : Json.parse e with
  | none =>
    exact ⟨genericErrorJson e, by simp only [chatStreamErrorTail, hp], Or.inr ⟨rfl, henv⟩⟩
  | some v =>
    rcases v with _ | b | raw | s | xs | fs
    · exact ⟨genericErrorJson e, by simp only [chatStreamErrorTail, hp], Or.inr ⟨rfl, henv⟩⟩
    · exact ⟨genericErrorJson e, by simp only [chatStreamErrorTail, hp], Or.inr ⟨rfl, henv⟩⟩
    · exact ⟨genericErrorJson e, by simp only [chatStreamErrorTail, hp], Or.inr ⟨rfl, henv⟩⟩
    · exact ⟨genericErrorJson e, by simp only [chatStreamErrorTail, hp], Or.inr ⟨rfl, henv⟩⟩
    · exact ⟨genericErrorJson e, by simp only [chatStreamErrorTail, hp], Or.inr ⟨rfl, henv⟩⟩
    · by_cases hk : (jsonLookup fs "error").isSome = true
      · exact ⟨Json.obj fs,
          by simp only [chatStreamErrorTail, hp]; rw [if_pos hk],
          Or.inl ⟨fs, rfl, hk, rfl⟩⟩
      · exact ⟨genericErrorJson e,
          by simp only [chatStreamErrorTail, hp]; rw [if_neg hk],
          Or.inr ⟨rfl, henv⟩⟩

/-! ### Claim C2: character-creation result shape on status queries -/

/-- Stored result of a completed character-creation task: the dict of
character info the generation flow persists. -/
def c2CharRaw : String :=
  "\x7b\"character_id\": \"ch_123\", \"name\": \"Alice\"\x7d"

/-- The parsed form of `c2CharRaw`. -/
def c2CharJson : Json :=
  Json.obj [("character_id", Json.str "ch_123"), ("name", Json.str "Alice")]

/-- Completed character-creation task row used against C2. -/
def c2CharTask : TaskRow :=
  { task_id := "task-char-1", token_id := 1, model := "character-creation",
    prompt := "create character", status := "completed", progress := 100,
    result_urls := some c2CharRaw, completed_at := some 1000 }

/-- C2 is the code's intent but the code breaks it: for the completed
`character-creation` task the status route's dispatch does select the
stored dict (first conjunct, `routes.py` lines 111–118, whose comment
says `TaskStatusResponse now supports Union[List[str], Dict]`), but
`models.TaskStatusResponse.result_urls` is still declared
`Optional[List[str]]`, so constructing the response raises a pydantic
`ValidationError` and the endpoint answers 500 instead of returning the
object (remaining conjuncts). -/
theorem c2_character_result_code_bug :
    interpretResultUrls "character-creation" (some c2CharRaw) = some c2CharJson ∧
    validateOptListStr (some c2CharJson) = none ∧
    getTaskStatus [c2CharTask] "task-char-1" = TaskQueryResult.validationError500 :=
  ⟨rfl, rfl, rfl⟩
